import Mathlib

/-!
Verification of the fmu-sumo-sim2sumo run-time orchestration pipeline.

The definitions below are a shallow embedding of the Python sources
`src/fmu/sumo/sim2sumo/common.py`, `tables.py` and `_special_treatments.py`:
pure functions become Lean functions, the mutable `Dispatcher` becomes
explicit state passing, Python exceptions become `Option`/`Except` values,
and the filesystem/`psutil` reads become explicit inputs.  Machine floats
appear only as the fixed factor `_limit_percent = 0.5`, which we treat in
exact arithmetic (multiplying by 0.5 and comparing a ratio against 1 is
exact for the integer byte counts involved).
-/

namespace Sim2Sumo

/-- Characters of `pathlib.Path(p).name`: everything after the last slash
(the datafile paths handled by the pipeline have no trailing slash). -/
def nameChars (cs : List Char) : List Char :=
  (cs.reverse.takeWhile (fun c => c ≠ '/')).reverse

/-- The last slash separated component of a path, as a string. -/
def nameOf (p : String) : String :=
  String.mk (nameChars p.data)

/-- Split a character list at its last dot: the part before the last dot and
the part strictly after it; `none` when no dot occurs. -/
def splitLastDot : List Char → Option (List Char × List Char)
  | [] => none
  | c :: rest =>
    match splitLastDot rest with
    | some (pre, post) => some (c :: pre, post)
    | none => if c = '.' then some ([], rest) else none

/-- Characters of `pathlib.PurePath.suffix` for a file name: CPython returns
`name[i:]` for `i = name.rfind('.')` whenever `0 < i < len(name) - 1`, and
the empty string otherwise. -/
def suffixChars (name : List Char) : List Char :=
  match splitLastDot name with
  | some (pre, post) => if pre = [] ∨ post = [] then [] else '.' :: post
  | none => []

/-- `pathlib.Path(p).suffix` as a string. -/
def suffixOf (p : String) : String :=
  String.mk (suffixChars (nameChars p.data))

/-- Python `s.replace(pat, "")` for the nonempty pattern `p :: ps`: removes
every non-overlapping occurrence scanning left to right.  The `fuel`
argument makes the recursion structural; `removeOcc` supplies enough fuel
for the scan to finish. -/
def removeOccFuel (p : Char) (ps : List Char) : Nat → List Char → List Char
  | 0, l => l
  | _ + 1, [] => []
  | fuel + 1, c :: rest =>
    if (p :: ps).isPrefixOf (c :: rest) then
      removeOccFuel p ps fuel (rest.drop ps.length)
    else
      c :: removeOccFuel p ps fuel rest

/-- Python `s.replace(p :: ps, "")`. -/
def removeOcc (p : Char) (ps : List Char) (l : List Char) : List Char :=
  removeOccFuel p ps l.length l

/-- The `base_name` of `give_name` in `common.py`:
`Path(p).name.replace(Path(p).suffix, "")`.  Python `str.replace` with an
empty pattern and empty replacement returns the string unchanged. -/
def baseNameChars (name : List Char) : List Char :=
  match suffixChars name with
  | [] => name
  | c :: cs => removeOcc c cs name

/-- The stripping loop of `give_name`, acting on the reversed character list:
`while base_name[-1].isdigit() or base_name.endswith("-"): base_name = base_name[:-1]`.
`none` models the `IndexError` raised by `base_name[-1]` once the string is
empty. -/
def stripTrailRev : List Char → Option (List Char)
  | [] => none
  | c :: rest => if c.isDigit ∨ c = '-' then stripTrailRev rest else some (c :: rest)

/-- `give_name` from `common.py`: derive the case name of a datafile path by
taking the file name, deleting the suffix, and stripping trailing digits and
dashes.  Returns `none` when the loop empties the string and the Python code
raises `IndexError`. -/
def giveName (p : String) : Option String :=
  match stripTrailRev (baseNameChars (nameChars p.data)).reverse with
  | none => none
  | some r => some (String.mk r.reverse)

/-- The suffixes accepted by `find_datafiles_no_seedpoint`. -/
def validFiletypes : List String := [".afi", ".DATA", ".in"]

/-- `find_datafiles_no_seedpoint` from `common.py`: the glob matches under the
working directory are modelled as the input list `fs`, and the suffix filter
`file.suffix in valid_filetypes` is applied to it. -/
def findDatafilesNoSeedpoint (fs : List String) : List String :=
  fs.filter (fun p => validFiletypes.contains (suffixOf p))

/-- Membership test of a key in a Python dict, modelled on an association
list: `k in d`. -/
def hasKey {β : Type} : List (String × β) → String → Bool
  | [], _ => false
  | (k, _) :: rest, n => if n = k then true else hasKey rest n

/-- Python dict read `d[k]` (as an `Option`): the value stored at the key.
Association lists built by `setEntry`/first-wins insertion have unique
keys, matching dict semantics. -/
def lookupKey {β : Type} : List (String × β) → String → Option β
  | [], _ => none
  | (k, v) :: rest, n => if n = k then some v else lookupKey rest n

/-- The first element of a list satisfying a predicate, in iteration
order. -/
def firstWith (pred : String → Bool) : List String → Option String
  | [] => none
  | p :: rest => if pred p then some p else firstWith pred rest

/-- Loop body of `find_datafile_paths`: walk the datafiles, derive each name
via `give_name`, and keep the first path found for each name (later
collisions are dropped with a warning).  `none` models a `give_name`
`IndexError` escaping the loop. -/
def findDatafilePathsAux : List String → List (String × String) →
    Option (List (String × String))
  | [], acc => some acc
  | p :: rest, acc =>
    match giveName p with
    | none => none
    | some n =>
      if hasKey acc n then
        findDatafilePathsAux rest acc
      else
        findDatafilePathsAux rest (acc ++ [(n, p)])

/-- `find_datafile_paths` from `common.py`: map derived case names to the
first discovered datafile path carrying that name. -/
def findDatafilePaths (fs : List String) : Option (List (String × String)) :=
  findDatafilePathsAux (findDatafilesNoSeedpoint fs) []

/-- The metadata record handed to the packager.  `generate_meta` guarantees a
`file.relative_path` entry, which is the only field the core reads. -/
structure Meta where
  relativePath : String
deriving DecidableEq

/-- A transfer unit.  `FileOnJob(bytestring, metadata)` is a collaborator of
the core (fmu-sumo uploader); per its interface it stores the byte payload
verbatim in `byte_string`.  `convert_2_sumo_file` then sets `path`,
`metadata_path` and `size` on it. -/
structure SumoFile where
  byteString : List Nat
  metadata : Meta
  path : String
  metadataPath : String
  size : Nat
deriving DecidableEq

/-- `convert_2_sumo_file` from `common.py`: `None` passes through; otherwise
the object is serialized by `converter`, metadata is produced by
`metacreator` on `meta_args`, and the resulting file records
`size = len(byte_string)` recomputed from the payload. -/
def convert2SumoFile {α β : Type} (obj : Option α) (converter : α → List Nat)
    (metacreator : β → Meta) (metaArgs : β) : Option SumoFile :=
  match obj with
  | none => none
  | some o =>
    let bytestring := converter o
    let metadata := metacreator metaArgs
    some { byteString := bytestring
           metadata := metadata
           path := metadata.relativePath
           metadataPath := ""
           size := bytestring.length }

/-- `nodisk_upload` from `common.py` hands the batch to the upload client
collaborator `upload_files` only when the batch is nonempty; otherwise the
network call is skipped with a log line.  The returned value records the
call made to the upload client: `some batch` means `upload_files` ran on
`batch`, `none` means no upload client call happened. -/
def nodiskUpload (files : List SumoFile) : Option (List SumoFile) :=
  if files.length > 0 then some files else none

/-- The mutable state of `Dispatcher` in `common.py`.  `avail` is the last
`psutil.virtual_memory().available` sample; the memory budget is
`_mem_limit = avail * _limit_percent` with `_limit_percent = 0.5`, carried
here through `avail` so the threshold test can be done in exact
arithmetic. -/
structure Dispatcher where
  parentid : String
  env : String
  avail : Nat
  memCount : Nat
  count : Nat
  objects : List SumoFile
deriving DecidableEq

/-- Construction of a `Dispatcher`: counters start at zero, the pending list
empty, and the memory budget is sampled once (`avail0`).  The case uuid
lookup of `get_case_uuid` is resolved before construction succeeds and is
passed in as `parentid`. -/
def Dispatcher.init (parentid env : String) (avail0 : Nat) : Dispatcher :=
  { parentid := parentid, env := env, avail := avail0,
    memCount := 0, count := 0, objects := [] }

/-- `Dispatcher._upload`: hand the entire pending list to `nodisk_upload`,
then clear the pending list and reset the pending byte counter.  The add
counter `_count` is left untouched by the source.  Returns the new state and
the batch handed to `nodisk_upload`. -/
def Dispatcher.uploadBatch (d : Dispatcher) : Dispatcher × List SumoFile :=
  ({ d with objects := [], memCount := 0 }, d.objects)

/-- `Dispatcher.add`: a `None` file is dropped with a warning and changes
nothing.  Otherwise the file size is added to `_mem_count`, the file is
appended, `_count` is incremented, the memory budget is re-sampled
(`freshAvail`), and a synchronous flush runs when `mem_frac > 1` or
`_count > 100`.  With `_mem_limit = avail * 0.5`, the test
`mem_count / mem_limit > 1` is exactly `2 * mem_count > avail`.  The second
component is `some batch` when a flush happened inside this call. -/
def Dispatcher.add (d : Dispatcher) (file : Option SumoFile) (freshAvail : Nat) :
    Dispatcher × Option (List SumoFile) :=
  match file with
  | none => (d, none)
  | some f =>
    let d1 : Dispatcher :=
      { d with memCount := d.memCount + f.size,
               objects := d.objects ++ [f],
               count := d.count + 1,
               avail := freshAvail }
    if 2 * d1.memCount > d1.avail ∨ d1.count > 100 then
      ((d1.uploadBatch).1, some (d1.uploadBatch).2)
    else
      (d1, none)

/-- `Dispatcher.finish`: one unconditional final flush. -/
def Dispatcher.finish (d : Dispatcher) : Dispatcher × List SumoFile :=
  d.uploadBatch

/-- Run a sequence of `add` calls, each with its own re-sampled
available-memory value, collecting every flush batch in order. -/
def Dispatcher.runAdds (d : Dispatcher) :
    List (Option SumoFile × Nat) → Dispatcher × List (List SumoFile)
  | [] => (d, [])
  | (f, a) :: rest =>
    match d.add f a with
    | (d1, fl) =>
      match d1.runAdds rest with
      | (d2, fls) => (d2, (match fl with | some b => [b] | none => []) ++ fls)

/-- The Python exception classes observable at the `get_results` boundary in
`tables.py`: `RuntimeError`, `TypeError`, `FileNotFoundError`, `ValueError`
are caught there; anything else propagates. -/
inductive ExtractErr
  | runtime
  | typeErr
  | fileNotFound
  | valueErr
  | other
deriving DecidableEq

/-- Pandas column dtypes, at the granularity `convert_to_arrow` inspects them:
string dtype versus everything else, with datetime distinguished because
`pd.to_datetime` rewrites the DATE column. -/
inductive Dtype
  | dstr
  | dfloat
  | dint
  | ddatetime
deriving DecidableEq

/-- A pandas dataframe at schema level: its named, typed columns. -/
structure PFrame where
  cols : List (String × Dtype)
deriving DecidableEq

/-- Arrow column types produced by `convert_to_arrow`. -/
inductive ArrowTy
  | astring
  | afloat32
  | atimestampMs
deriving DecidableEq

/-- A pyarrow table at schema level. -/
structure ATable where
  schema : List (String × ArrowTy)
deriving DecidableEq

/-- The value `get_results` returns when a result was produced: either the
pandas frame kept as is, or its arrow conversion. -/
inductive TableObj
  | pandas (f : PFrame)
  | arrow (t : ATable)
deriving DecidableEq

/-- `convert_to_arrow` from `_special_treatments.py`, at schema level: the
DATE column is first rewritten by `pd.to_datetime`; then each string-dtyped
column becomes `pa.string()`, and every other column gets
`standard.get(name, pa.float32())` with `standard = {DATE: timestamp(ms)}`. -/
def convertToArrow (f : PFrame) : ATable :=
  let fixed := f.cols.map (fun c => if c.1 = "DATE" then (c.1, Dtype.ddatetime) else c)
  { schema := fixed.map (fun c =>
      if c.2 = Dtype.dstr then (c.1, ArrowTy.astring)
      else if c.1 = "DATE" then (c.1, ArrowTy.atimestampMs)
      else (c.1, ArrowTy.afloat32)) }

/-- Outcome of running an arrow convertor on a frame: a converted table, or
one of the two exception classes the conversion step of `get_results`
catches (`pyarrow.lib.ArrowInvalid`, `TypeError`). -/
inductive ConvOutcome
  | ok (t : ATable)
  | arrowInvalid
  | typeError
deriving DecidableEq

/-- A res2df submodule as `find_arrow_convertor` sees it: it either exports a
dedicated `_df2pyarrow` or it does not. -/
structure SubmodModule where
  df2pyarrow : Option (PFrame → ConvOutcome)

/-- `find_arrow_convertor` from `_special_treatments.py`: the registered
convertor is the submodule's own `_df2pyarrow` when present; when the import
raises `AttributeError` the generic `convert_to_arrow` is registered
instead.  This choice is made once, at registry build time. -/
def findArrowConvertor (m : SubmodModule) : PFrame → ConvOutcome :=
  match m.df2pyarrow with
  | some f => f
  | none => fun fr => ConvOutcome.ok (convertToArrow fr)

/-- Option values appearing in the sim2sumo configuration. `parsedZonemap f`
stands for `convert_lyrlist_to_zonemap(parse_lyrfile(f))`, the parsed
content of the layer file `f` (the parse itself is an external res2df
collaborator and is abstracted to the marker). -/
inductive OptVal
  | b (v : Bool)
  | s (v : String)
  | n (v : Nat)
  | parsedZonemap (v : String)
deriving DecidableEq

/-- The `kwargs.get("arrow", True)` read of `get_results`: the arrow toggle
defaults to true; configuration writes it as a YAML boolean. -/
def arrowRequested (kwargs : List (String × OptVal)) : Bool :=
  match lookupKey kwargs "arrow" with
  | some (OptVal.b v) => v
  | _ => true

/-- The `right_kwargs` filter of `get_results`: keep only options the
registry recognizes for this submodule. -/
def rightKwargs (submodOptions : List String) (kwargs : List (String × OptVal)) :
    List (String × OptVal) :=
  kwargs.filter (fun kv => submodOptions.contains kv.1)

/-- `get_results` from `tables.py` (the `print_help=False` path), for one
submodule whose registered arrow convertor is `arrowConvertor` and whose
extraction behaviour is `extract` (the composition of `res2df` extraction
on the suffix-fixed datafile path with the passed options; path handling
and the rft tidy step are absorbed into `extract`).  `output` starts as
`None`; `RuntimeError`, `TypeError`, `FileNotFoundError` and `ValueError`
raised by the extractor are caught (the last three logged via `trace`) and
leave `output = None`; other exceptions propagate.  When extraction
succeeds and arrow conversion is requested, `ArrowInvalid` and `TypeError`
from the convertor are caught and the pandas frame is kept. -/
def getResults (submodOptions : List String) (arrowConvertor : PFrame → ConvOutcome)
    (extract : List (String × OptVal) → Except ExtractErr PFrame)
    (kwargs : List (String × OptVal)) : Except ExtractErr (Option TableObj) :=
  let arrow := arrowRequested kwargs
  match extract (rightKwargs submodOptions kwargs) with
  | Except.error ExtractErr.runtime => Except.ok none
  | Except.error ExtractErr.typeErr => Except.ok none
  | Except.error ExtractErr.fileNotFound => Except.ok none
  | Except.error ExtractErr.valueErr => Except.ok none
  | Except.error ExtractErr.other => Except.error ExtractErr.other
  | Except.ok output =>
    if arrow then
      match arrowConvertor output with
      | ConvOutcome.ok t => Except.ok (some (TableObj.arrow t))
      | ConvOutcome.arrowInvalid => Except.ok (some (TableObj.pandas output))
      | ConvOutcome.typeError => Except.ok (some (TableObj.pandas output))
    else
      Except.ok (some (TableObj.pandas output))

/-- Python exceptions that can escape the configuration resolution code:
`KeyError` from `SUBMOD_DICT[submod]` in `filter_options`, and `IndexError`
from `give_name`. -/
inductive PyErr
  | keyError
  | indexError
deriving DecidableEq

/-- The extractor registry as `filter_options` consumes it: for each
submodule name, the option names `SUBMOD_DICT[submod]["options"]` accepted
by its extractor.  The registry is built once per process by
`_define_submodules` from the installed res2df backend and injected here. -/
structure Registry where
  submods : List (String × List String)
deriving DecidableEq

/-- Python dict assignment `d[k] = v` on an association list without
duplicate keys: overwrite in place when the key exists, append otherwise. -/
def setEntry {β : Type} (l : List (String × β)) (k : String) (v : β) :
    List (String × β) :=
  if hasKey l k then
    l.map (fun kv => if kv.1 = k then (k, v) else kv)
  else
    l ++ [(k, v)]

/-- The zonemap rewrite of `filter_options`:
`convert_lyrlist_to_zonemap(parse_lyrfile(v))` applied to the configured
layer-file path, abstracted to the `parsedZonemap` marker. -/
def zonemapConvert : OptVal → OptVal
  | OptVal.s f => OptVal.parsedZonemap f
  | v => v

/-- `filter_options` from `common.py`: drop options the registry does not
recognize for this submodule (keeping the special keys `arrow` and
`md_log_file`), force-default `arrow` to the caller's value or `True`, and
parse a configured `zonemap`.  An unknown submodule raises `KeyError`. -/
def filterOptions (registry : Registry) (submod : String)
    (kwargs : List (String × OptVal)) : Except PyErr (List (String × OptVal)) :=
  match lookupKey registry.submods submod with
  | none => Except.error PyErr.keyError
  | some submodOptions =>
    let filtered := kwargs.filter (fun kv =>
      submodOptions.contains kv.1 || kv.1 == "arrow" || kv.1 == "md_log_file")
    let filtered := setEntry filtered "arrow" ((lookupKey kwargs "arrow").getD (OptVal.b true))
    Except.ok (match lookupKey filtered "zonemap" with
      | some v => setEntry filtered "zonemap" (zonemapConvert v)
      | none => filtered)

/-- The per-datafile value of a dictionary shaped `datafile` entry: either a
mapping from submodule names to option maps, or a bare list of submodule
names (the `AttributeError` fallback of `create_config_dict_from_dict`). -/
inductive SubmodSpec
  | withOptions (m : List (String × List (String × OptVal)))
  | names (l : List String)
deriving DecidableEq

/-- The shapes a `datafile` entry (or the `datafile` override argument) can
take in `find_datafiles`: a bare string or `Path`, a list of strings, or a
mapping from datafile to submodule specification. -/
inductive Seed
  | str (s : String)
  | pathList (l : List String)
  | dict (m : List (String × SubmodSpec))
deriving DecidableEq

/-- The `datatypes` entry: the literal token `all` or an explicit list. -/
inductive Datatypes
  | all
  | names (l : List String)
deriving DecidableEq

/-- The `sim2sumo` section of the configuration, in resolved shape. -/
structure Simconfig where
  datafile : Option Seed := none
  datatypes : Option Datatypes := none
  options : Option (List (String × OptVal)) := none
  grid3d : Bool := false
deriving DecidableEq

/-- A configuration document, of which only the `sim2sumo` section matters
to the resolver. -/
structure Config where
  sim2sumo : Option Simconfig := none
deriving DecidableEq

/-- `find_datafiles` from `common.py`: the config `datafile` entry takes
precedence over the seedpoint argument; no seed means a filesystem search,
a bare string becomes a one-element list, a list is used as is, and a
mapping is returned whole for the dictionary resolution path. -/
def findDatafiles (seedArg : Option Seed) (sc : Simconfig) (fs : List String) :
    Sum (List String) (List (String × SubmodSpec)) :=
  match (sc.datafile).orElse (fun _ => seedArg) with
  | none => Sum.inl (findDatafilesNoSeedpoint fs)
  | some (Seed.str s) => Sum.inl [s]
  | some (Seed.pathList l) => Sum.inl l
  | some (Seed.dict m) => Sum.inr m

/-- `find_full_path` from `common.py`: derive the name of the declared
datafile and look it up among the discovered paths; a miss is a warning and
yields `None`, while a `give_name` `IndexError` propagates. -/
def findFullPath (datafile : String) (paths : List (String × String)) :
    Except PyErr (Option String) :=
  match giveName datafile with
  | none => Except.error PyErr.indexError
  | some n => Except.ok (lookupKey paths n)

/-- The default submodule set of `create_config_dict_from_list`. -/
def defaultSubmods : List String := ["summary", "rft", "satfunc"]

/-- One resolved entry of the job mapping: for each submodule its filtered
options, plus the `grid3d` toggle that `create_config_dict` stores under
the `grid3d` key of the same per-datafile dict. -/
structure JobEntry where
  submodOpts : List (String × List (String × OptVal))
  grid3d : Bool
deriving DecidableEq

/-- The inner loop of `create_config_dict_from_list`: filter the shared
options once per submodule, filling the per-datafile dict in order. -/
def buildListEntry (registry : Registry) (options : List (String × OptVal)) :
    List String → List (String × List (String × OptVal)) →
    Except PyErr (List (String × List (String × OptVal)))
  | [], acc => Except.ok acc
  | smod :: rest, acc =>
    match filterOptions registry smod options with
    | Except.error e => Except.error e
    | Except.ok fo => buildListEntry registry options rest (setEntry acc smod fo)

/-- The datafile loop of `create_config_dict_from_list`: unresolvable
datafiles are skipped, resolvable ones get one entry per submodule and the
`grid3d` flag; exceptions propagate. -/
def ccdListAux (registry : Registry) (submods : List String)
    (options : List (String × OptVal)) (grid3d : Bool)
    (paths : List (String × String)) :
    List String → List (String × JobEntry) → Except PyErr (List (String × JobEntry))
  | [], acc => Except.ok acc
  | df :: rest, acc =>
    match findFullPath df paths with
    | Except.error e => Except.error e
    | Except.ok none => ccdListAux registry submods options grid3d paths rest acc
    | Except.ok (some p) =>
      match buildListEntry registry options submods [] with
      | Except.error e => Except.error e
      | Except.ok entry =>
        ccdListAux registry submods options grid3d paths rest
          (setEntry acc p { submodOpts := entry, grid3d := grid3d })

/-- `create_config_dict_from_list` from `common.py`.  The submodule list is
the datatype override, else the configured `datatypes` (token `all` meaning
every registered submodule), else the default set; the options block
defaults to `{"arrow": True}`.  `submods.values()` raises `AttributeError`
on a list, so the filtered options are the shared options block. -/
def createConfigDictFromList (registry : Registry) (datatype : Option String)
    (sc : Simconfig) (datafiles : List String) (paths : List (String × String))
    (grid3d : Bool) : Except PyErr (List (String × JobEntry)) :=
  let submods := match datatype with
    | some dt => [dt]
    | none => match sc.datatypes with
      | none => defaultSubmods
      | some Datatypes.all => registry.submods.map Prod.fst
      | some (Datatypes.names l) => l
  let options := sc.options.getD [("arrow", OptVal.b true)]
  ccdListAux registry submods options grid3d paths datafiles []

/-- The submodule loop of `create_config_dict_from_dict` for a mapping
shaped per-datafile value. -/
def buildDictEntry (registry : Registry) :
    List (String × List (String × OptVal)) →
    List (String × List (String × OptVal)) →
    Except PyErr (List (String × List (String × OptVal)))
  | [], acc => Except.ok acc
  | (smod, opts) :: rest, acc =>
    match filterOptions registry smod opts with
    | Except.error e => Except.error e
    | Except.ok fo => buildDictEntry registry rest (setEntry acc smod fo)

/-- `create_config_dict_from_dict` from `common.py`: resolve each declared
datafile; a mapping shaped value runs every submodule through
`filter_options`, a list shaped value (the `AttributeError` branch) gives
each named submodule empty options; the `grid3d` flag is stored last. -/
def ccdDictAux (registry : Registry) (grid3d : Bool)
    (paths : List (String × String)) :
    List (String × SubmodSpec) → List (String × JobEntry) →
    Except PyErr (List (String × JobEntry))
  | [], acc => Except.ok acc
  | (df, spec) :: rest, acc =>
    match findFullPath df paths with
    | Except.error e => Except.error e
    | Except.ok none => ccdDictAux registry grid3d paths rest acc
    | Except.ok (some p) =>
      match spec with
      | SubmodSpec.withOptions m =>
        match buildDictEntry registry m [] with
        | Except.error e => Except.error e
        | Except.ok entry =>
          ccdDictAux registry grid3d paths rest
            (setEntry acc p { submodOpts := entry, grid3d := grid3d })
      | SubmodSpec.names l =>
        ccdDictAux registry grid3d paths rest
          (setEntry acc p
            { submodOpts := l.foldl (fun acc2 s => setEntry acc2 s []) [],
              grid3d := grid3d })

/-- `create_config_dict` from `common.py`: read the `sim2sumo` section (an
absent section resolves like an empty one), discover the datafile paths,
resolve the declared datafiles, and dispatch on their shape (list versus
mapping).  Both `find_datafiles` and `find_datafile_paths` are computed
before the dispatch, as in the source. -/
def createConfigDict (registry : Registry) (config : Config)
    (datafileArg : Option Seed) (datatypeArg : Option String)
    (fs : List String) : Except PyErr (List (String × JobEntry)) :=
  let sc := config.sim2sumo.getD {}
  let grid3d := sc.grid3d
  match findDatafilePaths fs with
  | none => Except.error PyErr.indexError
  | some paths =>
    match findDatafiles datafileArg sc fs with
    | Sum.inl dfl => createConfigDictFromList registry datatypeArg sc dfl paths grid3d
    | Sum.inr m => ccdDictAux registry grid3d paths m []

/-- Whether an `Except` computation finished without raising. -/
def exceptOk {ε α : Type} : Except ε α → Bool
  | Except.ok _ => true
  | Except.error _ => false

instance {ε α : Type} [DecidableEq ε] [DecidableEq α] : DecidableEq (Except ε α) :=
  fun x y =>
    match x, y with
    | Except.ok a, Except.ok b =>
      if h : a = b then isTrue (by rw [h]) else
        isFalse (fun hh => h (Except.ok.inj hh))
    | Except.error a, Except.error b =>
      if h : a = b then isTrue (by rw [h]) else
        isFalse (fun hh => h (Except.error.inj hh))
    | Except.ok _, Except.error _ => isFalse (fun hh => Except.noConfusion hh)
    | Except.error _, Except.ok _ => isFalse (fun hh => Except.noConfusion hh)

/-- A concrete transfer unit used in counterexamples and witnesses: a six
byte payload. -/
def cexFile : SumoFile :=
  { byteString := [0, 1, 2, 3, 4, 5], metadata := { relativePath := "rel" },
    path := "rel", metadataPath := "", size := 6 }

/-- A concrete pandas frame used in counterexamples and witnesses. -/
def cexFrame : PFrame := { cols := [("WOPR", Dtype.dfloat), ("DATE", Dtype.dstr)] }

/-- A concrete registry used in counterexamples and witnesses. -/
def cexRegistry : Registry :=
  { submods := [("summary", ["time_index"]), ("rft", ["wellname"]),
                ("satfunc", ["keywords"])] }

/-- A concrete filesystem listing used in counterexamples and witnesses. -/
def cexFs : List String := ["rp/eclipse/model/RUN1-0.DATA"]

/-- A configuration whose `sim2sumo` section declares `datafile` as a bare
string, the shape the C4 claim says must be rejected. -/
def cexConfigStr : Config :=
  { sim2sumo := some { datafile := some (Seed.str "RUN1") } }

/-- A configuration whose `sim2sumo` section declares `datafile` as a
mapping at the top level. -/
def cexConfigDict : Config :=
  { sim2sumo := some
      { datafile := some (Seed.dict [("RUN1", SubmodSpec.names ["summary"])]) } }

/-! Helper lemmas about the association list primitives. -/

theorem lookupKey_none_hasKey {β : Type} :
    ∀ (l : List (String × β)) (n : String), lookupKey l n = none → hasKey l n = false := by
  intro l n
  induction l with
  | nil => intro _; rfl
  | cons hd tl ih =>
    rcases hd with ⟨k, v⟩
    by_cases h : n = k
    · simp [lookupKey, h]
    · simp only [lookupKey, hasKey, if_neg h]
      exact ih

theorem hasKey_iff_mem_keys {β : Type} :
    ∀ (l : List (String × β)) (n : String), hasKey l n = true ↔ n ∈ l.map Prod.fst := by
  intro l n
  induction l with
  | nil => simp [hasKey]
  | cons hd tl ih =>
    rcases hd with ⟨k, v⟩
    by_cases h : n = k
    · simp [hasKey, h]
    · simp [hasKey, h, ih]

theorem lookupKey_append_single {β : Type} :
    ∀ (acc : List (String × β)) (k n : String) (v : β),
      lookupKey (acc ++ [(k, v)]) n =
        match lookupKey acc n with
        | some q => some q
        | none => if n = k then some v else none := by
  intro acc k n v
  induction acc with
  | nil => simp [lookupKey]
  | cons hd tl ih =>
    rcases hd with ⟨k1, v1⟩
    by_cases h : n = k1
    · simp [lookupKey, h]
    · simp only [List.cons_append, lookupKey, if_neg h]
      exact ih

theorem firstWith_cons_false (pred : String → Bool) (p : String) (rest : List String)
    (h : pred p = false) : firstWith pred (p :: rest) = firstWith pred rest := by
  simp [firstWith, h]

theorem nodup_keys_snoc {β : Type} (l : List (String × β)) (k : String) (v : β)
    (h1 : (l.map Prod.fst).Nodup) (h2 : hasKey l k = false) :
    ((l ++ [(k, v)]).map Prod.fst).Nodup := by
  rw [List.map_append]
  apply List.Nodup.append h1 (List.nodup_singleton k)
  intro a ha hb
  rcases List.mem_singleton.mp hb with rfl
  have := (hasKey_iff_mem_keys l a).mpr ha
  rw [h2] at this
  cases this

theorem findDatafilePathsAux_spec :
    ∀ (l : List String) (acc m : List (String × String)),
      (acc.map Prod.fst).Nodup →
      findDatafilePathsAux l acc = some m →
      (m.map Prod.fst).Nodup ∧
      ∀ n, lookupKey m n =
        match lookupKey acc n with
        | some q => some q
        | none => firstWith (fun q => decide (giveName q = some n)) l := by
  intro l
  induction l with
  | nil =>
    intro acc m hnd h
    simp only [findDatafilePathsAux, Option.some.injEq] at h
    subst h
    refine ⟨hnd, fun n => ?_⟩
    cases hl : lookupKey acc n <;> simp [firstWith, hl]
  | cons p rest ih =>
    intro acc m hnd h
    simp only [findDatafilePathsAux] at h
    cases hg : giveName p with
    | none => rw [hg] at h; cases h
    | some np =>
      rw [hg] at h
      have h2 : (if hasKey acc np = true then findDatafilePathsAux rest acc
          else findDatafilePathsAux rest (acc ++ [(np, p)])) = some m := h
      by_cases hk : hasKey acc np = true
      · rw [if_pos hk] at h2
        obtain ⟨hnd2, hspec⟩ := ih acc m hnd h2
        refine ⟨hnd2, fun n => ?_⟩
        rw [hspec n]
        cases hl : lookupKey acc n with
        | some q => rfl
        | none =>
          have hne : np ≠ n := by
            intro he
            rw [he] at hk
            rw [lookupKey_none_hasKey acc n hl] at hk
            cases hk
          rw [firstWith_cons_false]
          simp [hg, hne]
      · rw [if_neg hk] at h2
        have hkf : hasKey acc np = false := by
          cases hkk : hasKey acc np
          · rfl
          · exact absurd hkk hk
        obtain ⟨hnd2, hspec⟩ := ih (acc ++ [(np, p)]) m
          (nodup_keys_snoc acc np p hnd hkf) h2
        refine ⟨hnd2, fun n => ?_⟩
        rw [hspec n, lookupKey_append_single]
        cases hl : lookupKey acc n with
        | some q => rfl
        | none =>
          by_cases hn : n = np
          · subst hn
            simp [firstWith, hg]
          · have hne : np ≠ n := fun he => hn he.symm
            rw [if_neg hn, firstWith_cons_false]
            simp [hg, hne]

theorem findDatafilePathsAux_none :
    ∀ (l : List String) (acc : List (String × String)) (q : String),
      q ∈ l → giveName q = none → findDatafilePathsAux l acc = none := by
  intro l
  induction l with
  | nil => intro acc q hq; cases hq
  | cons p rest ih =>
    intro acc q hq hgn
    rcases List.mem_cons.mp hq with he | hm
    · subst he
      simp [findDatafilePathsAux, hgn]
    · cases hg : giveName p with
      | none => simp [findDatafilePathsAux, hg]
      | some np =>
        simp only [findDatafilePathsAux, hg]
        split
        · exact ih acc q hm hgn
        · exact ih (acc ++ [(np, p)]) q hm hgn

theorem stripTrailRev_none :
    ∀ (l : List Char), (∀ c ∈ l, c.isDigit = true ∨ c = '-') → stripTrailRev l = none := by
  intro l
  induction l with
  | nil => intro _; rfl
  | cons c rest ih =>
    intro h
    have hc := h c (List.mem_cons_self c rest)
    have hcond : c.isDigit ∨ c = '-' := by
      rcases hc with h1 | h1
      · exact Or.inl h1
      · exact Or.inr h1
    simp only [stripTrailRev, if_pos hcond]
    exact ih (fun a ha => h a (List.mem_cons_of_mem c ha))

/-! The claim theorems. -/

/-- C1, counterexample: from a freshly constructed Dispatcher, a single
`add` whose byte size drives the memory ratio above 1 performs a flush
inside the call, after which the pending list is empty and the pending
bytes are zero, but the count field compared against the 100 cap is 1, not
0 — refuting the claim that immediately after the flush the pending count
equals 0. -/
theorem dispatcher_add_count_not_reset_cex :
    (((Dispatcher.init "p" "dev" 10).runAdds [(some cexFile, 10)]).2 = [[cexFile]]) ∧
    (((Dispatcher.init "p" "dev" 10).runAdds [(some cexFile, 10)]).1.objects = []) ∧
    (((Dispatcher.init "p" "dev" 10).runAdds [(some cexFile, 10)]).1.memCount = 0) ∧
    ¬(((Dispatcher.init "p" "dev" 10).runAdds [(some cexFile, 10)]).1.count = 0) := by
  decide

/-- C1, amended: whenever an `add` makes the memory ratio exceed 1 or the
add counter exceed 100, a flush is performed before the call returns;
immediately after that flush the pending list is empty and the pending
bytes are zero, while the add counter is not reset — it equals the previous
count plus one. -/
theorem dispatcher_add_flushes_on_threshold (d : Dispatcher) (f : SumoFile) (a : Nat)
    (h : 2 * (d.memCount + f.size) > a ∨ d.count + 1 > 100) :
    d.add (some f) a =
      ({ d with objects := [], memCount := 0, count := d.count + 1, avail := a },
       some (d.objects ++ [f])) := by
  simp only [Dispatcher.add, Dispatcher.uploadBatch]
  rw [if_pos h]

theorem dispatcher_add_flushes_on_threshold_witness :
    (2 * ((Dispatcher.init "p" "dev" 10).memCount + cexFile.size) > 10 ∨
      (Dispatcher.init "p" "dev" 10).count + 1 > 100) ∧
    (Dispatcher.init "p" "dev" 10).add (some cexFile) 10 =
      ({ (Dispatcher.init "p" "dev" 10) with
         objects := [], memCount := 0,
         count := (Dispatcher.init "p" "dev" 10).count + 1, avail := 10 },
       some ((Dispatcher.init "p" "dev" 10).objects ++ [cexFile])) :=
  ⟨by decide, dispatcher_add_flushes_on_threshold (Dispatcher.init "p" "dev" 10) cexFile 10 (by decide)⟩

/-- C2, counterexample: `finish` on a Dispatcher with zero pending units
performs the flush call with an empty batch, but `nodisk_upload` then skips
the call to the upload client `upload_files` — no empty list is handed to
the upload client, refuting the claim's second half. -/
theorem dispatcher_finish_empty_skips_upload_client_cex :
    ((Dispatcher.init "p" "dev" 100).finish).2 = [] ∧
    nodiskUpload ((Dispatcher.init "p" "dev" 100).finish).2 = none := by
  decide

/-- C2, amended: `finish` always performs exactly one flush whose batch is
exactly the pending units, leaving the pending list empty and the pending
bytes zero; the flush reaches the upload client with that batch when it is
nonempty and skips the upload client call when it is empty. -/
theorem dispatcher_finish_always_flushes (d : Dispatcher) :
    (d.finish).2 = d.objects ∧
    (d.finish).1.objects = [] ∧
    (d.finish).1.memCount = 0 ∧
    nodiskUpload (d.finish).2 =
      (if d.objects.length > 0 then some d.objects else none) :=
  ⟨rfl, rfl, rfl, rfl⟩

/-- C3: a `None` pipeline result makes the packager return `None`, and
`Dispatcher.add` of `None` changes nothing — same pending list, count and
bytes, and no flush. -/
theorem none_propagation {α β : Type} (converter : α → List Nat)
    (metacreator : β → Meta) (metaArgs : β) (d : Dispatcher) (a : Nat) :
    convert2SumoFile none converter metacreator metaArgs = none ∧
    d.add none a = (d, none) :=
  ⟨rfl, rfl⟩

/-- C9: every transfer unit built by `convert_2_sumo_file` from a non-`None`
object records a byte size equal to the length of its byte payload. -/
theorem sumo_file_size_equals_payload {α β : Type} (o : α) (conv : α → List Nat)
    (mc : β → Meta) (ma : β) (sf : SumoFile)
    (h : convert2SumoFile (some o) conv mc ma = some sf) :
    sf.size = sf.byteString.length := by
  simp only [convert2SumoFile, Option.some.injEq] at h
  subst h
  rfl

theorem sumo_file_size_equals_payload_witness :
    convert2SumoFile (some 0) (fun _ : Nat => [7, 7])
        (fun _ : Nat => { relativePath := "r" }) 0 =
      some { byteString := [7, 7], metadata := { relativePath := "r" },
             path := "r", metadataPath := "", size := 2 } ∧
    ({ byteString := [7, 7], metadata := { relativePath := "r" },
       path := "r", metadataPath := "", size := 2 } : SumoFile).size =
      ({ byteString := [7, 7], metadata := { relativePath := "r" },
         path := "r", metadataPath := "", size := 2 } : SumoFile).byteString.length :=
  ⟨rfl, sumo_file_size_equals_payload 0 (fun _ : Nat => [7, 7])
    (fun _ : Nat => { relativePath := "r" }) 0 _ rfl⟩

/-- C10: `give_name` is partial — on any datafile path whose stem (name with
the suffix deleted) consists only of digits and dashes, the stripping loop
empties the string and raises `IndexError`, and path discovery over any
filesystem containing such a datafile fails the same way. -/
theorem give_name_digit_dash_stem_index_error (p : String) (fs : List String)
    (hstem : ∀ c ∈ baseNameChars (nameChars p.data), c.isDigit = true ∨ c = '-')
    (hmem : p ∈ findDatafilesNoSeedpoint fs) :
    giveName p = none ∧ findDatafilePaths fs = none := by
  have hstrip : stripTrailRev (baseNameChars (nameChars p.data)).reverse = none :=
    stripTrailRev_none _ (fun c hc => hstem c (List.mem_reverse.mp hc))
  have hgn : giveName p = none := by
    simp [giveName, hstrip]
  exact ⟨hgn, findDatafilePathsAux_none _ [] p hmem hgn⟩

theorem give_name_digit_dash_stem_index_error_witness :
    (∀ c ∈ baseNameChars (nameChars ("a/b/123-4.DATA" : String).data),
        c.isDigit = true ∨ c = '-') ∧
    ("a/b/123-4.DATA" ∈ findDatafilesNoSeedpoint ["a/b/123-4.DATA"]) ∧
    (giveName "a/b/123-4.DATA" = none ∧
      findDatafilePaths ["a/b/123-4.DATA"] = none) :=
  ⟨by decide, by decide,
    give_name_digit_dash_stem_index_error "a/b/123-4.DATA" ["a/b/123-4.DATA"]
      (by decide) (by decide)⟩

/-- C4, counterexample: a configuration declaring `datafile` as a bare
string, and one declaring it as a top-level mapping, both resolve without
raising any error — the string one resolves to a one-entry job mapping with
the default submodules and options — refuting the claim that config
resolution raises a configuration error for these shapes. -/
theorem config_datafile_shapes_accepted_cex :
    exceptOk (createConfigDict cexRegistry cexConfigStr none none cexFs) = true ∧
    exceptOk (createConfigDict cexRegistry cexConfigDict none none cexFs) = true ∧
    createConfigDict cexRegistry cexConfigStr none none cexFs =
      Except.ok [("rp/eclipse/model/RUN1-0.DATA",
        { submodOpts := [("summary", [("arrow", OptVal.b true)]),
                         ("rft", [("arrow", OptVal.b true)]),
                         ("satfunc", [("arrow", OptVal.b true)])],
          grid3d := false })] := by
  refine ⟨rfl, rfl, by decide⟩

/-- C4, amended: a bare-string `datafile` entry is accepted and treated
exactly like the one-element list containing it, and a mapping-shaped
`datafile` entry is accepted and routed whole into the mapping-based
resolution path; no configuration error is raised for either shape. -/
theorem config_datafile_string_and_dict_accepted (registry : Registry)
    (sc : Simconfig) (s : String) (dtArg : Option String) (fs : List String)
    (m : List (String × SubmodSpec)) :
    createConfigDict registry
        { sim2sumo := some { sc with datafile := some (Seed.str s) } }
        none dtArg fs =
      createConfigDict registry
        { sim2sumo := some { sc with datafile := some (Seed.pathList [s]) } }
        none dtArg fs ∧
    findDatafiles none { sc with datafile := some (Seed.dict m) } fs = Sum.inr m := by
  constructor
  · simp [createConfigDict, findDatafiles, createConfigDictFromList]
  · simp [findDatafiles]

/-- C5: in one discovery pass, the resolved mapping contains exactly one
path per distinct derived case name (its keys have no duplicates), and the
path stored for a name is the first discovered datafile, in iteration
order, whose derived name matches; colliding later paths are dropped. -/
theorem find_datafile_paths_dedup_first_wins (fs : List String)
    (m : List (String × String)) (n : String)
    (h : findDatafilePaths fs = some m) :
    (m.map Prod.fst).Nodup ∧
    lookupKey m n =
      firstWith (fun q => decide (giveName q = some n)) (findDatafilesNoSeedpoint fs) := by
  obtain ⟨hnd, hspec⟩ :=
    findDatafilePathsAux_spec (findDatafilesNoSeedpoint fs) [] m (by simp) h
  refine ⟨hnd, ?_⟩
  have hn := hspec n
  simpa [lookupKey] using hn

theorem find_datafile_paths_dedup_first_wins_witness :
    findDatafilePaths
        ["r/eclipse/model/RUN-1.DATA", "r/ix/model/RUN-2.afi",
         "r/opm/model/OTHER-3.DATA", "r/doc/notes.txt"] =
      some [("RUN", "r/eclipse/model/RUN-1.DATA"),
            ("OTHER", "r/opm/model/OTHER-3.DATA")] ∧
    (([("RUN", "r/eclipse/model/RUN-1.DATA"),
       ("OTHER", "r/opm/model/OTHER-3.DATA")].map Prod.fst).Nodup ∧
      lookupKey [("RUN", "r/eclipse/model/RUN-1.DATA"),
                 ("OTHER", "r/opm/model/OTHER-3.DATA")] "RUN" =
        firstWith (fun q => decide (giveName q = some "RUN"))
          (findDatafilesNoSeedpoint
            ["r/eclipse/model/RUN-1.DATA", "r/ix/model/RUN-2.afi",
             "r/opm/model/OTHER-3.DATA", "r/doc/notes.txt"])) :=
  ⟨by decide,
    find_datafile_paths_dedup_first_wins
      ["r/eclipse/model/RUN-1.DATA", "r/ix/model/RUN-2.afi",
       "r/opm/model/OTHER-3.DATA", "r/doc/notes.txt"]
      [("RUN", "r/eclipse/model/RUN-1.DATA"),
       ("OTHER", "r/opm/model/OTHER-3.DATA")] "RUN" (by decide)⟩

/-- C6: when the extractor raises `FileNotFoundError`, `ValueError` or
`TypeError`, `get_results` catches it and returns `None` instead of
propagating the exception. -/
theorem get_results_catches_extraction_errors (submodOptions : List String)
    (conv : PFrame → ConvOutcome)
    (extract : List (String × OptVal) → Except ExtractErr PFrame)
    (kwargs : List (String × OptVal)) (e : ExtractErr)
    (he : extract (rightKwargs submodOptions kwargs) = Except.error e)
    (hcaught : e = ExtractErr.fileNotFound ∨ e = ExtractErr.valueErr ∨
      e = ExtractErr.typeErr) :
    getResults submodOptions conv extract kwargs = Except.ok none := by
  rcases hcaught with h1 | h1 | h1 <;> subst h1 <;> simp [getResults, he]

theorem get_results_catches_extraction_errors_witness :
    ((fun _ : List (String × OptVal) =>
        (Except.error ExtractErr.fileNotFound : Except ExtractErr PFrame))
      (rightKwargs [] []) = Except.error ExtractErr.fileNotFound) ∧
    (ExtractErr.fileNotFound = ExtractErr.fileNotFound ∨
      ExtractErr.fileNotFound = ExtractErr.valueErr ∨
      ExtractErr.fileNotFound = ExtractErr.typeErr) ∧
    getResults [] (fun _ => ConvOutcome.typeError)
      (fun _ => Except.error ExtractErr.fileNotFound) [] = Except.ok none :=
  ⟨rfl, Or.inl rfl,
    get_results_catches_extraction_errors [] (fun _ => ConvOutcome.typeError)
      (fun _ => Except.error ExtractErr.fileNotFound) [] ExtractErr.fileNotFound
      rfl (Or.inl rfl)⟩

/-- C7, counterexample: with arrow conversion requested and a registered
convertor that raises the invalid-schema error, `get_results` returns the
original pandas frame and not the generic conversion the claim requires —
and the two results differ on a concrete frame. -/
theorem get_results_arrow_invalid_no_generic_fallback_cex :
    getResults [] (fun _ => ConvOutcome.arrowInvalid)
        (fun _ => Except.ok cexFrame) [] =
      Except.ok (some (TableObj.pandas cexFrame)) ∧
    TableObj.pandas cexFrame ≠ TableObj.arrow (convertToArrow cexFrame) := by
  refine ⟨rfl, by decide⟩

/-- C7, amended: when the registered arrow convertor raises the
invalid-schema error — just as when it raises a type error — `get_results`
keeps the original pandas representation; the generic converter (string
columns typed as string, other columns as float, the DATE column as a
timestamp) is not a run-time fallback but the convertor registered at
registry-build time for result-types without a dedicated one. -/
theorem get_results_conversion_degrades (submodOptions : List String)
    (kwargs : List (String × OptVal)) (F : PFrame) (conv : PFrame → ConvOutcome)
    (extract : List (String × OptVal) → Except ExtractErr PFrame)
    (hx : extract (rightKwargs submodOptions kwargs) = Except.ok F)
    (harrow : arrowRequested kwargs = true)
    (hc : conv F = ConvOutcome.arrowInvalid ∨ conv F = ConvOutcome.typeError) :
    getResults submodOptions conv extract kwargs =
      Except.ok (some (TableObj.pandas F)) ∧
    findArrowConvertor { df2pyarrow := none } F =
      ConvOutcome.ok (convertToArrow F) := by
  constructor
  · rcases hc with h1 | h1 <;> simp [getResults, hx, harrow, h1]
  · rfl

theorem get_results_conversion_degrades_witness :
    ((fun _ : List (String × OptVal) =>
        (Except.ok cexFrame : Except ExtractErr PFrame))
      (rightKwargs [] []) = Except.ok cexFrame) ∧
    arrowRequested [] = true ∧
    ((fun _ : PFrame => ConvOutcome.arrowInvalid) cexFrame =
        ConvOutcome.arrowInvalid ∨
      (fun _ : PFrame => ConvOutcome.arrowInvalid) cexFrame =
        ConvOutcome.typeError) ∧
    (getResults [] (fun _ => ConvOutcome.arrowInvalid)
        (fun _ => Except.ok cexFrame) [] =
      Except.ok (some (TableObj.pandas cexFrame)) ∧
    findArrowConvertor { df2pyarrow := none } cexFrame =
      ConvOutcome.ok (convertToArrow cexFrame)) :=
  ⟨rfl, rfl, Or.inl rfl,
    get_results_conversion_degrades [] [] cexFrame
      (fun _ => ConvOutcome.arrowInvalid) (fun _ => Except.ok cexFrame)
      rfl rfl (Or.inl rfl)⟩

/-- C8: resolving the same configuration twice against the same filesystem
state and the same registry yields equal job mappings — same keys and the
same per-key entry. -/
theorem create_config_dict_idempotent (registry : Registry) (config : Config)
    (dfArg : Option Seed) (dtArg : Option String) (fs : List String)
    (r1 r2 : Except PyErr (List (String × JobEntry)))
    (h1 : r1 = createConfigDict registry config dfArg dtArg fs)
    (h2 : r2 = createConfigDict registry config dfArg dtArg fs) :
    r1 = r2 := by
  rw [h1, h2]

theorem create_config_dict_idempotent_witness :
    (createConfigDict cexRegistry cexConfigStr none none cexFs =
      createConfigDict cexRegistry cexConfigStr none none cexFs) :=
  create_config_dict_idempotent cexRegistry cexConfigStr none none cexFs
    (createConfigDict cexRegistry cexConfigStr none none cexFs)
    (createConfigDict cexRegistry cexConfigStr none none cexFs) rfl rfl

end Sim2Sumo
